import Mathlib

/-!
Verification of the OCR dispatcher of the `deepseek-ocr-demo` repository.

The development shallowly embeds the Python code of
`app/ocr/deepseek_ocr.py`, `app/utils/image_processor.py` and
`app/utils/validation.py`.

Modelling conventions:
* Python strings are Lean `String`s; `str.strip()` is `pyStrip`, which
  removes Python whitespace characters from both ends.
* Python floats appearing as OCR confidences are modelled as exact
  rationals (`ℚ`); `round(x, 2)` is `pyRound2`, round half to even at two
  decimal places.  (Binary floating-point representation error is not
  modelled.)
* A PIL image is abstracted to its width, height, mode and format;
  `Image.convert` and `Image.resize` return images whose `format`
  attribute is `None`.
* Calls into external libraries (the filesystem / `Image.open`, the local
  model's `generate`+`decode`, `easyocr.Reader.readtext`,
  `pytesseract.image_to_string`, `mimetypes.guess_type`) are inputs of the
  embedding, collected in `EngineEnv`; an `Except.error` value models the
  call raising an exception.  A Python function that may raise is embedded
  as a function into `Except String _`.
-/

namespace DeepSeekOCRDemo

/-- The characters `str.strip()` removes in Python
(space, tab, newline, carriage return, vertical tab, form feed). -/
def pyWhitespace (c : Char) : Bool :=
  c = ' ' || c = '\t' || c = '\n' || c = '\r' || c = '\x0b' || c = '\x0c'

/-- `str.strip()` on a list of characters: drop whitespace from both ends. -/
def pyStripList (l : List Char) : List Char :=
  ((l.dropWhile pyWhitespace).reverse.dropWhile pyWhitespace).reverse

/-- Python `s.strip()`. -/
def pyStrip (s : String) : String :=
  String.mk (pyStripList s.data)

/-- Round half to even to the nearest integer (Python `round(q)` on an
exactly represented value). -/
def roundHalfEven (q : ℚ) : ℤ :=
  if Int.fract q < 1 / 2 then ⌊q⌋
  else if 1 / 2 < Int.fract q then ⌊q⌋ + 1
  else if ⌊q⌋ % 2 = 0 then ⌊q⌋ else ⌊q⌋ + 1

/-- Python `round(q, 2)` over exact rationals. -/
def pyRound2 (q : ℚ) : ℚ :=
  (roundHalfEven (q * 100) : ℚ) / 100

/-- Abstraction of a PIL image: pixels are not modelled, only the
attributes the OCR code reads (`size`, `mode`, `format`). -/
structure PILImage where
  width : Nat
  height : Nat
  mode : String
  format : Option String
deriving Repr, DecidableEq

/-- `config.model`, restricted to the fields the dispatcher reads. -/
structure ModelConfig where
  name : String
  use_local : Bool
deriving Repr, DecidableEq

/-- `config.api`, restricted to the fields the dispatcher reads.
`deepseek_api_key` is truthy in Python iff it is a non-empty string. -/
structure APIConfig where
  deepseek_api_key : String
deriving Repr, DecidableEq

/-- `config.ocr.preprocessing`. -/
structure PreprocessingConfig where
  enabled : Bool
  resize : Bool
  enhance_contrast : Bool
  denoise : Bool
deriving Repr, DecidableEq

/-- `config.ocr`, restricted to the fields read here. -/
structure OCRConfig where
  max_image_size : Nat
  preprocessing : PreprocessingConfig
deriving Repr, DecidableEq

/-- `config.upload`, restricted to the fields the validator reads. -/
structure UploadConfig where
  max_file_size : Nat
  allowed_extensions : List String
deriving Repr, DecidableEq

/-- The configuration object, restricted to the fields read by the code
under verification. -/
structure Config where
  model : ModelConfig
  api : APIConfig
  ocr : OCRConfig
  upload : UploadConfig
deriving Repr, DecidableEq

/-- Whether `self.model` and `self.tokenizer` are loaded (non-`None`). -/
structure ModelState where
  modelLoaded : Bool
  tokenizerLoaded : Bool
deriving Repr, DecidableEq

/-- Outcomes of the external calls made while processing one request.
An `Except.error` models the call raising; the `String` is the message. -/
structure EngineEnv where
  /-- `os.path.exists` + `Image.open`: the opened image for a path, or an
  exception (this also covers the explicit file-not-found raise). -/
  openImage : String → Except String PILImage
  /-- The decoded response of the local model for an image and prompt
  (`generate` + `decode`), or an exception anywhere in the local branch. -/
  localResponse : PILImage → String → Except String String
  /-- Whether `import easyocr` succeeds. -/
  easyocrAvailable : Bool
  /-- `reader.readtext(image_np, detail=1)`: the detections as
  (text, confidence) pairs in order (bounding boxes are not modelled),
  or an exception. -/
  easyocrReadtext : PILImage → Except String (List (String × ℚ))
  /-- Whether `import pytesseract` succeeds. -/
  tesseractAvailable : Bool
  /-- `pytesseract.image_to_string(image, config=..)`, or an exception. -/
  tesseractImageToString : PILImage → Except String String

/-- The result dictionary built by the extraction methods.  Keys that only
some branches set are `Option`s defaulting to `none` (absent key). -/
structure OCRResult where
  text : String
  confidence : ℚ
  method : String
  warning : Option String := none
  note : Option String := none
  err : Option String := none
  segments_found : Option Nat := none
  character_count : Option Nat := none
  image_path : Option String := none
  image_size : Option (Nat × Nat) := none
  model_used : Option String := none
  processing_method : Option String := none
deriving Repr, DecidableEq

/-- An entry of the list returned by `batch_extract_text`: either the
result dictionary of a successful `extract_text` call, or the failure
record `{image_path, text: "", error, success: False}` built in the
`except` branch of the loop. -/
inductive BatchItem where
  | ok (result : OCRResult)
  | failed (image_path : String) (text : String) (error : String)
      (success : Bool)
deriving Repr, DecidableEq

namespace ImageProcessor

/-- `ImageProcessor._resize_image`: shrink so the larger dimension equals
`max_size`, keeping the aspect ratio.  `int((height * max_size) / width)`
truncates the quotient, which for image-sized operands is exactly `Nat`
division. -/
def resize_image (image : PILImage) (max_size : Nat) : PILImage :=
  let width := image.width
  let height := image.height
  if max width height ≤ max_size then image
  else if width > height then
    { image with
        width := max_size, height := height * max_size / width,
        format := none }
  else
    { image with
        height := max_size, width := width * max_size / height,
        format := none }

/-- `ImageProcessor.load_image`: open the file, convert to RGB if needed,
resize if the larger dimension exceeds `max_size`.  Any exception is
re-raised as `ImageProcessingError("Image loading failed: ...")`. -/
def load_image (max_size : Nat) (openImage : String → Except String PILImage)
    (image_path : String) : Except String PILImage :=
  match openImage image_path with
  | .error e => .error ("Image loading failed: " ++ e)
  | .ok image0 =>
    let image1 := if image0.mode ≠ "RGB"
      then { image0 with mode := "RGB", format := none } else image0
    let image2 := if max image1.width image1.height > max_size
      then resize_image image1 max_size else image1
    .ok image2

/-- `ImageProcessor._optimize_size`: upscale images whose larger dimension
is below 1000.  `scale_factor = min_size / max(width, height)` divides by
zero when the image is empty; that exception propagates.  The float
multiplication `int(width * scale_factor)` is modelled as exact `Nat`
division (float rounding is not modelled). -/
def optimize_size (image : PILImage) : Except String PILImage :=
  if max image.width image.height < 1000 then
    if max image.width image.height = 0 then
      .error "division by zero"
    else
      .ok { image with
              width := image.width * 1000 / max image.width image.height,
              height := image.height * 1000 / max image.width image.height,
              format := none }
  else .ok image

/-- `ImageProcessor._enhance_contrast`: the pixel transform is not
modelled; on the abstraction the successful OpenCV round trip keeps the
size and RGB mode and yields a `format`-less `Image.fromarray` result
(its own `except` returns the image unchanged, which on this abstraction
differs only in `format`). -/
def enhance_contrast (image : PILImage) : PILImage :=
  { image with format := none }

/-- `ImageProcessor._denoise_image`: modelled like `_enhance_contrast`. -/
def denoise_image (image : PILImage) : PILImage :=
  { image with format := none }

/-- `ImageProcessor.preprocess_image`: apply the enabled steps in order;
an exception (only possible in `_optimize_size`) is re-raised as
`ImageProcessingError("Preprocessing failed: ...")`. -/
def preprocess_image (cfg : Config) (image : PILImage) :
    Except String PILImage :=
  let step1 : Except String PILImage :=
    if cfg.ocr.preprocessing.resize then optimize_size image else .ok image
  match step1 with
  | .error e => .error ("Preprocessing failed: " ++ e)
  | .ok image1 =>
    let image2 := if cfg.ocr.preprocessing.enhance_contrast
      then enhance_contrast image1 else image1
    let image3 := if cfg.ocr.preprocessing.denoise
      then denoise_image image2 else image2
    .ok image3

end ImageProcessor

namespace DeepSeekOCR

/-- The default OCR prompt, used when the caller passes no prompt. -/
def defaultPrompt : String :=
  "Extract all text from this image. Provide the text exactly as it appears, maintaining formatting and structure."

/-- Python `image.format or 'Unknown'`: `None` and the empty string are
falsy. -/
def pyFormatOr (format : Option String) : String :=
  match format with
  | none => "Unknown"
  | some s => if s = "" then "Unknown" else s

/-- The `demo_text` f-string of `DeepSeekOCR._extract_text_demo`,
byte for byte. -/
def demoText (width height : Nat) (mode : String) (format : Option String) :
    String :=
  "OCR Processing Failed\n            \nAll OCR methods were attempted but none could extract text from this image.\n\nImage Details:\n- Dimensions: "
    ++ toString width ++ " x " ++ toString height
    ++ " pixels\n- Color mode: " ++ mode ++ "\n- Format: "
    ++ pyFormatOr format
    ++ "\n\nAttempted Methods:\n1. ✗ DeepSeek API (not supported yet)\n2. ✗ EasyOCR (no text found with sufficient confidence)\n3. ✗ Tesseract (no text detected or not installed)\n\nPossible reasons:\n- Image may not contain readable text\n- Text might be too small, blurry, or in a complex layout\n- Handwritten text is harder to recognize\n- Image quality might be too low\n\nSuggestions:\n- Try a clearer, higher resolution image\n- Ensure text is clearly visible and readable\n- Use images with printed (not handwritten) text\n- Check if the image actually contains text"

/-- `DeepSeekOCR._extract_text_demo`: the placeholder result.  Its `try`
body cannot raise, so the method is total.  The prompt parameter is
unused, as in the source. -/
def extract_text_demo (image : PILImage) (_prompt : Option String) :
    OCRResult :=
  { text := pyStrip (demoText image.width image.height image.mode image.format),
    confidence := 0,
    method := "demo_mode",
    warning := some "Demo mode active - please configure model or API for real OCR" }

/-- The limitation-notice f-string of `DeepSeekOCR._extract_text_api`;
`{image.size}` renders as the Python tuple `(width, height)`. -/
def apiLimitationText (prompt : String) (image : PILImage) : String :=
  "API Limitation Notice:\n\nDeepSeek\x27s current API does not support image processing/vision capabilities yet.\n\nTo use OCR functionality, you have these options:\n\n1. **Use Local Model** (Recommended):\n   - Download the DeepSeek-VL model\n   - Set USE_LOCAL_MODEL=true in your .env file\n   - Requires ~14GB of disk space and GPU/CPU resources\n\n2. **Use Alternative OCR**:\n   - Install EasyOCR: pip install easyocr\n   - Or use Tesseract OCR for basic text extraction\n\n3. **Wait for API Update**:\n   - DeepSeek may add vision capabilities to their API in the future\n\nFor now, the application is running in demonstration mode.\nYour image was uploaded successfully but cannot be processed via API.\n\nOriginal prompt: "
    ++ prompt ++ "\nImage size: (" ++ toString image.width ++ ", "
    ++ toString image.height ++ ")\nImage mode: " ++ image.mode

/-- `DeepSeekOCR._extract_text_api`: the method never calls the network;
with a key configured it returns the `api_limitation` notice, and the
`OCRError` raised for a missing key is caught by its own `except`, which
returns the `api_error` dictionary.  Hence the method is total. -/
def extract_text_api (cfg : Config) (image : PILImage)
    (prompt : Option String) : OCRResult :=
  if cfg.api.deepseek_api_key = "" then
    { text := "API Error: DeepSeek API key not configured\n\nPlease use local model for image processing.",
      confidence := 0,
      method := "api_error",
      err := some "DeepSeek API key not configured" }
  else
    { text := apiLimitationText (prompt.getD defaultPrompt) image,
      confidence := 0,
      method := "api_limitation",
      warning := some "DeepSeek API does not currently support image processing" }

/-- `DeepSeekOCR._extract_text_local`: ask the local model, strip the
decoded response, report fixed confidence 1.0; any failure (including an
uninitialized model) is re-raised as
`OCRError("Local OCR processing failed: ...")`. -/
def extract_text_local (st : ModelState) (env : EngineEnv)
    (image : PILImage) (prompt : Option String) : Except String OCRResult :=
  if st.modelLoaded && st.tokenizerLoaded then
    match env.localResponse image (prompt.getD defaultPrompt) with
    | .error e => .error ("Local OCR processing failed: " ++ e)
    | .ok response =>
      .ok { text := pyStrip response, confidence := 1,
            method := "deepseek_local" }
  else .error "Local OCR processing failed: Local model not initialized"

/-- The accumulation loop of the EasyOCR branch of
`_extract_text_fallback`: collect `text_parts`, `total_confidence` and
`valid_results` over the detections, keeping those with confidence
strictly above 0.3. -/
def easyocrScan (results : List (String × ℚ)) : List String × ℚ × Nat :=
  results.foldl
    (fun acc tc =>
      if tc.2 > 3 / 10 then (acc.1 ++ [tc.1], acc.2.1 + tc.2, acc.2.2 + 1)
      else acc)
    ([], 0, 0)

/-- The EasyOCR attempt of `_extract_text_fallback`: `none` models the
branch producing no result (library unavailable, `readtext` raising, or
no detection above the floor), after which the code falls through to the
next engine. -/
def easyocrStep (env : EngineEnv) (image : PILImage) : Option OCRResult :=
  if env.easyocrAvailable then
    match env.easyocrReadtext image with
    | .error _ => none
    | .ok results =>
      let scan := easyocrScan results
      let text_parts := scan.1
      if text_parts ≠ [] then
        let extracted_text := String.intercalate "\n" text_parts
        let avg_confidence : ℚ :=
          if scan.2.2 > 0 then scan.2.1 / (scan.2.2 : ℚ) else 0
        some { text := pyStrip extracted_text,
               confidence := pyRound2 avg_confidence,
               method := "easyocr_fallback",
               note := some ("Using EasyOCR - extracted "
                 ++ toString text_parts.length ++ " text segments"),
               segments_found := some text_parts.length }
      else none
  else none

/-- The Tesseract attempt of `_extract_text_fallback`: `none` models the
branch producing no result (library unavailable, the call raising, or
only-whitespace output). -/
def tesseractStep (env : EngineEnv) (image : PILImage) : Option OCRResult :=
  if env.tesseractAvailable then
    match env.tesseractImageToString image with
    | .error _ => none
    | .ok extracted_text =>
      if pyStrip extracted_text ≠ "" then
        some { text := pyStrip extracted_text,
               confidence := 7 / 10,
               method := "tesseract_fallback",
               note := some "Using Tesseract as fallback OCR engine",
               character_count := some (pyStrip extracted_text).length }
      else none
  else none

/-- The continuation of `_extract_text_fallback` after the EasyOCR
attempt: try Tesseract, then degrade to the demo placeholder. -/
def fallbackRest (env : EngineEnv) (image : PILImage)
    (prompt : Option String) : OCRResult :=
  match tesseractStep env image with
  | some r => r
  | none => extract_text_demo image prompt

/-- `DeepSeekOCR._extract_text_fallback`: EasyOCR, then Tesseract, then
the demo placeholder.  Each engine's own exceptions are caught in the
source and turn into falling through, so the function is total. -/
def extract_text_fallback (env : EngineEnv) (image : PILImage)
    (prompt : Option String) : OCRResult :=
  match easyocrStep env image with
  | some r => r
  | none => fallbackRest env image prompt

/-- The preprocessing stage of `extract_text`: applied only when
`config.ocr.preprocessing.enabled`. -/
def preprocessStage (cfg : Config) (image : PILImage) :
    Except String PILImage :=
  if cfg.ocr.preprocessing.enabled then
    ImageProcessor.preprocess_image cfg image
  else .ok image

/-- The `result.update({...})` metadata block of `extract_text`. -/
def addMeta (cfg : Config) (image_path : String) (image : PILImage)
    (r : OCRResult) : OCRResult :=
  { r with
      image_path := some image_path,
      image_size := some (image.width, image.height),
      model_used := some cfg.model.name,
      processing_method :=
        some (if cfg.model.use_local then "local" else "api") }

/-- `DeepSeekOCR.extract_text`: load and preprocess the image, dispatch to
the local model / API / fallback engines, attach metadata.  Any exception
escaping the body is re-raised as
`OCRError("Text extraction failed: ...")`.  The inner `try` around the API
call is dead code in the source because `_extract_text_api` catches its
own exceptions. -/
def extract_text (cfg : Config) (st : ModelState) (env : EngineEnv)
    (image_path : String) (prompt : Option String) :
    Except String OCRResult :=
  match ImageProcessor.load_image cfg.ocr.max_image_size env.openImage
      image_path with
  | .error e => .error ("Text extraction failed: " ++ e)
  | .ok image0 =>
    match preprocessStage cfg image0 with
    | .error e => .error ("Text extraction failed: " ++ e)
    | .ok image =>
      if cfg.model.use_local && st.modelLoaded && st.tokenizerLoaded then
        match extract_text_local st env image prompt with
        | .error e => .error ("Text extraction failed: " ++ e)
        | .ok r => .ok (addMeta cfg image_path image r)
      else if !cfg.model.use_local && cfg.api.deepseek_api_key != "" then
        let r := extract_text_api cfg image prompt
        if r.method = "api_limitation" then
          .ok (addMeta cfg image_path image
                (extract_text_fallback env image prompt))
        else .ok (addMeta cfg image_path image r)
      else
        .ok (addMeta cfg image_path image
              (extract_text_fallback env image prompt))

/-- One iteration of the `batch_extract_text` loop: a successful
`extract_text` result, or the failure record built in its `except`. -/
def batchItem (cfg : Config) (st : ModelState) (env : EngineEnv)
    (prompt : Option String) (image_path : String) : BatchItem :=
  match extract_text cfg st env image_path prompt with
  | .ok r => .ok r
  | .error e => .failed image_path "" e false

/-- The `for image_path in image_paths` loop of `batch_extract_text`,
appending one entry per path to the `results` accumulator. -/
def batchLoop (cfg : Config) (st : ModelState) (env : EngineEnv)
    (prompt : Option String) :
    List String → List BatchItem → List BatchItem
  | [], results => results
  | image_path :: rest, results =>
    batchLoop cfg st env prompt rest
      (results ++ [batchItem cfg st env prompt image_path])

/-- `DeepSeekOCR.batch_extract_text`: run the loop starting from the empty
`results` list. -/
def batch_extract_text (cfg : Config) (st : ModelState) (env : EngineEnv)
    (image_paths : List String) (prompt : Option String) :
    List BatchItem :=
  batchLoop cfg st env prompt image_paths []

/-- The engine steps of one dispatch, for stating the attempt-order
property. -/
inductive Step where
  | localModel
  | api
  | easyocr
  | tesseract
  | demo
deriving Repr, DecidableEq

/-- The fixed priority order of the engine steps. -/
def stepOrder : List Step :=
  [Step.localModel, Step.api, Step.easyocr, Step.tesseract, Step.demo]

/-- `_extract_text_fallback`, instrumented with the list of engines it
actually invokes (an engine whose library fails to import is not
invoked).  Identical control flow to `extract_text_fallback`. -/
def fallbackTrace (env : EngineEnv) (image : PILImage)
    (prompt : Option String) : OCRResult × List Step :=
  let t1 : List Step := if env.easyocrAvailable then [Step.easyocr] else []
  match easyocrStep env image with
  | some r => (r, t1)
  | none =>
    let t2 : List Step :=
      if env.tesseractAvailable then [Step.tesseract] else []
    match tesseractStep env image with
    | some r => (r, t1 ++ t2)
    | none => (extract_text_demo image prompt, t1 ++ t2 ++ [Step.demo])

/-- `extract_text`, instrumented with the list of engine steps attempted,
in order.  Identical control flow to `extract_text`. -/
def extract_text_trace (cfg : Config) (st : ModelState) (env : EngineEnv)
    (image_path : String) (prompt : Option String) :
    Except String OCRResult × List Step :=
  match ImageProcessor.load_image cfg.ocr.max_image_size env.openImage
      image_path with
  | .error e => (.error ("Text extraction failed: " ++ e), [])
  | .ok image0 =>
    match preprocessStage cfg image0 with
    | .error e => (.error ("Text extraction failed: " ++ e), [])
    | .ok image =>
      if cfg.model.use_local && st.modelLoaded && st.tokenizerLoaded then
        match extract_text_local st env image prompt with
        | .error e =>
          (.error ("Text extraction failed: " ++ e), [Step.localModel])
        | .ok r => (.ok (addMeta cfg image_path image r), [Step.localModel])
      else if !cfg.model.use_local && cfg.api.deepseek_api_key != "" then
        let r := extract_text_api cfg image prompt
        if r.method = "api_limitation" then
          let ft := fallbackTrace env image prompt
          (.ok (addMeta cfg image_path image ft.1), Step.api :: ft.2)
        else (.ok (addMeta cfg image_path image r), [Step.api])
      else
        let ft := fallbackTrace env image prompt
        (.ok (addMeta cfg image_path image ft.1), ft.2)

end DeepSeekOCR

/-- An uploaded file as the validator sees it: a filename and the raw
bytes of the stream. -/
structure FileStorage where
  filename : String
  content : List Nat
deriving Repr, DecidableEq

/-- Which `ValidationError` `FileValidator.validate_file` raises; the
four constructors are the four distinct messages of the source (message
formatting itself is not modelled). -/
inductive ValidationFailure where
  | noFile
  | extensionNotAllowed
  | fileTooLarge
  | invalidFileType
deriving Repr, DecidableEq

/-- Python `str.lower()` (ASCII case folding, which is all the validator
compares). -/
def pyLower (s : String) : String :=
  String.mk (s.data.map Char.toLower)

/-- `filename.rsplit('.', 1)[1]`: the part of the filename after the last
dot. -/
def extensionAfterLastDot (filename : String) : String :=
  String.mk ((filename.data.reverse.takeWhile (fun c => c != '.')).reverse)

namespace FileValidator

/-- `self.allowed_extensions = set(ext.lower() for ext in ...)`, kept as a
list (membership is all the code uses). -/
def allowedExtensionsSet (cfg : Config) : List String :=
  cfg.upload.allowed_extensions.map pyLower

/-- `FileValidator._is_allowed_extension`: reject a dotless filename,
otherwise look up the lowercased part after the last dot. -/
def is_allowed_extension (cfg : Config) (filename : String) : Bool :=
  if filename.data.contains '.' then
    (allowedExtensionsSet cfg).contains
      (pyLower (extensionAfterLastDot filename))
  else false

/-- `FileValidator._is_valid_size`: the seek dance just measures the
stream length. -/
def is_valid_size (cfg : Config) (file : FileStorage) : Bool :=
  file.content.length ≤ cfg.upload.max_file_size

/-- The `valid_mime_types` set of `_is_valid_mime_type`. -/
def validMimeTypes : List String :=
  ["image/jpeg", "image/jpg", "image/png", "image/bmp",
   "image/tiff", "image/webp", "image/gif", "application/pdf"]

/-- The four magic-byte checks of `_is_valid_mime_type`, applied to the
first 1024 bytes of the stream: JPEG, PNG, BMP, PDF. -/
def headerSignatureCheck (file : FileStorage) : Bool :=
  let header := file.content.take 1024
  List.isPrefixOf [0xff, 0xd8, 0xff] header
    || List.isPrefixOf [0x89, 0x50, 0x4e, 0x47, 0x0d, 0x0a, 0x1a, 0x0a] header
    || List.isPrefixOf [0x42, 0x4d] header
    || List.isPrefixOf [0x25, 0x50, 0x44, 0x46] header

/-- `FileValidator._is_valid_mime_type`: accept when
`mimetypes.guess_type` (a stdlib lookup, abstracted as `mimeGuess`)
returns a type in the set, otherwise fall back to the magic bytes. -/
def is_valid_mime_type (mimeGuess : String → Option String)
    (file : FileStorage) : Bool :=
  let mime_type := mimeGuess file.filename
  if (match mime_type with
      | some m => validMimeTypes.contains m
      | none => false) then true
  else headerSignatureCheck file

/-- `FileValidator.validate_file`: the four checks in source order, the
first failing one raising its `ValidationError`.  `none` models a falsy
`file` argument. -/
def validate_file (cfg : Config) (mimeGuess : String → Option String)
    (file : Option FileStorage) : Except ValidationFailure Bool :=
  match file with
  | none => .error .noFile
  | some f =>
    if f.filename = "" then .error .noFile
    else if !is_allowed_extension cfg f.filename then
      .error .extensionNotAllowed
    else if !is_valid_size cfg f then .error .fileTooLarge
    else if !is_valid_mime_type mimeGuess f then .error .invalidFileType
    else .ok true

end FileValidator

/-! ### Specification-side definitions and concrete instances -/

/-- Spec-side: the detections the EasyOCR branch accepts — those with
confidence strictly above the 0.3 floor, in input order. -/
def acceptedDetections (results : List (String × ℚ)) : List (String × ℚ) :=
  results.filter (fun tc => tc.2 > 3 / 10)

/-- `pat` occurs as a contiguous substring of `s`. -/
def containsSub (s pat : String) : Prop :=
  ∃ pre post : String, s = pre ++ pat ++ post

/-- Spec-side acceptance condition of `validate_file`, following the
claim's words: a file is present with a non-empty filename, the filename
has a dot and the lowercased part after the last dot is in the configured
allowed set, the byte size is at most the configured maximum, and the
guessed MIME type or the leading bytes match a known image/PDF
signature. -/
def specFileAccepted (cfg : Config) (mimeGuess : String → Option String)
    (file : Option FileStorage) : Prop :=
  ∃ f, file = some f ∧
    f.filename ≠ "" ∧
    f.filename.data.contains '.' = true ∧
    pyLower (extensionAfterLastDot f.filename)
      ∈ cfg.upload.allowed_extensions.map pyLower ∧
    f.content.length ≤ cfg.upload.max_file_size ∧
    ((∃ m, mimeGuess f.filename = some m
        ∧ m ∈ FileValidator.validMimeTypes)
      ∨ FileValidator.headerSignatureCheck f = true)

/-- A configuration with no local model, no API key, preprocessing off,
and the repository's default upload limits. -/
def cfgBase : Config :=
  { model := { name := "deepseek-vl-7b-chat", use_local := false },
    api := { deepseek_api_key := "" },
    ocr := { max_image_size := 4096,
             preprocessing := { enabled := false, resize := false,
                                enhance_contrast := false,
                                denoise := false } },
    upload := { max_file_size := 52428800,
                allowed_extensions := ["jpg", "jpeg", "png", "bmp",
                  "tiff", "pdf", "webp", "gif"] } }

/-- `cfgBase` with the local model selected. -/
def cfgLocal : Config :=
  { cfgBase with model := { name := "deepseek-vl-7b-chat", use_local := true } }

/-- `cfgBase` with an API key configured. -/
def cfgApi : Config :=
  { cfgBase with api := { deepseek_api_key := "sk-test" } }

/-- A 100×100 white RGB test image, as in the repository's tests. -/
def imgWhite100 : PILImage :=
  { width := 100, height := 100, mode := "RGB", format := none }

/-- No model loaded. -/
def stNone : ModelState := { modelLoaded := false, tokenizerLoaded := false }

/-- Model and tokenizer loaded. -/
def stLoaded : ModelState := { modelLoaded := true, tokenizerLoaded := true }

/-- An environment with no engine available at all; every image path opens
as the 100×100 white image. -/
def envNone : EngineEnv :=
  { openImage := fun _ => .ok imgWhite100,
    localResponse := fun _ _ => .error "no local model",
    easyocrAvailable := false,
    easyocrReadtext := fun _ => .ok [],
    tesseractAvailable := false,
    tesseractImageToString := fun _ => .error "tesseract is not installed" }

/-- An environment whose local model raises during generation. -/
def envLocalBoom : EngineEnv :=
  { envNone with localResponse := fun _ _ => .error "CUDA out of memory" }

/-- An environment whose local model returns an empty response. -/
def envLocalEmpty : EngineEnv :=
  { envNone with localResponse := fun _ _ => .ok "" }

/-- One EasyOCR detection whose text carries a leading space. -/
def spaceDetections : List (String × ℚ) := [(" a", 1 / 2)]

/-- An environment where only EasyOCR is available and it reports
`spaceDetections`. -/
def envEasySpace : EngineEnv :=
  { envNone with
      easyocrAvailable := true,
      easyocrReadtext := fun _ => .ok spaceDetections }

/-- Two EasyOCR detections above the floor and one below it. -/
def mixedDetections : List (String × ℚ) :=
  [("Hello", 9 / 10), ("World", 4 / 5), ("noise", 1 / 10)]

/-- An environment where only EasyOCR is available and it reports
`mixedDetections`. -/
def envEasyMixed : EngineEnv :=
  { envNone with
      easyocrAvailable := true,
      easyocrReadtext := fun _ => .ok mixedDetections }

/-- An environment where only Tesseract is available and it reads the
string of the repository's simple test image. -/
def envTessHello : EngineEnv :=
  { envNone with
      tesseractAvailable := true,
      tesseractImageToString := fun _ => .ok "Hello World!" }

/-- An environment where only Tesseract is available and its output
carries trailing whitespace. -/
def envTessPadded : EngineEnv :=
  { envNone with
      tesseractAvailable := true,
      tesseractImageToString := fun _ => .ok "Hello \n" }

/-- An environment where one specific path fails to open and every other
path opens as the white test image. -/
def envMissingSecond : EngineEnv :=
  { envNone with
      openImage := fun p =>
        if p = "missing.png" then
          .error "Image file not found: missing.png"
        else .ok imgWhite100 }

/-- A 5000×2500 image, larger than the default `max_image_size`. -/
def imgWide : PILImage :=
  { width := 5000, height := 2500, mode := "L", format := some "PNG" }

/-- An environment that opens every path as `imgWide`. -/
def envWide : EngineEnv :=
  { envNone with openImage := fun _ => .ok imgWide }

/-- A PNG upload: correct magic bytes, 100 bytes long. -/
def filePng : FileStorage :=
  { filename := "scan.png",
    content := [0x89, 0x50, 0x4e, 0x47, 0x0d, 0x0a, 0x1a, 0x0a]
      ++ List.replicate 92 0 }

/-! ### Helper lemmas -/

open DeepSeekOCR FileValidator

theorem list_contains_iff {α : Type} [BEq α] [LawfulBEq α] (l : List α)
    (a : α) : l.contains a = true ↔ a ∈ l := by
  simp [List.contains, List.elem_iff]

theorem pyStripList_eq_nil_iff (l : List Char) :
    pyStripList l = [] ↔ ∀ c ∈ l, pyWhitespace c = true := by
  unfold pyStripList
  simp only [List.reverse_eq_nil_iff, List.dropWhile_eq_nil_iff,
    List.mem_reverse]
  constructor
  · intro h c hc
    rcases List.mem_append.mp
        ((List.takeWhile_append_dropWhile pyWhitespace l) ▸ hc) with h1 | h2
    · exact List.mem_takeWhile_imp h1
    · exact h c h2
  · intro h c hc
    exact h c ((List.dropWhile_sublist pyWhitespace).mem hc)

theorem pyStrip_ne_empty {s : String} (c : Char) (hc : c ∈ s.data)
    (hw : pyWhitespace c = false) : pyStrip s ≠ "" := by
  intro h
  have hdata : pyStripList s.data = [] := by
    have := congrArg String.data h
    simpa [pyStrip] using this
  have := (pyStripList_eq_nil_iff s.data).mp hdata c hc
  rw [hw] at this
  exact Bool.false_ne_true this

theorem roundHalfEven_nonneg {q : ℚ} (h : 0 ≤ q) : 0 ≤ roundHalfEven q := by
  unfold roundHalfEven
  have hf : (0 : ℤ) ≤ ⌊q⌋ := Int.floor_nonneg.mpr h
  split
  · exact hf
  · split
    · omega
    · split <;> omega

theorem roundHalfEven_le_intCast {q : ℚ} {n : ℤ} (h : q ≤ (n : ℚ)) :
    roundHalfEven q ≤ n := by
  have hfl : ⌊q⌋ ≤ n := by
    have := Int.floor_le_floor h
    simpa using this
  unfold roundHalfEven
  split
  · exact hfl
  · rename_i hge
    have hfr : (1 : ℚ) / 2 ≤ Int.fract q := le_of_not_lt hge
    have hne : ⌊q⌋ ≠ n := by
      intro hEq
      have hq : q - (⌊q⌋ : ℚ) ≤ 0 := by
        rw [hEq]; linarith
      have : Int.fract q ≤ 0 := by
        rw [← Int.self_sub_floor q]
        exact hq
      linarith
    have hlt : ⌊q⌋ + 1 ≤ n := by omega
    split
    · exact hlt
    · split <;> omega

theorem pyRound2_nonneg {q : ℚ} (h : 0 ≤ q) : 0 ≤ pyRound2 q := by
  unfold pyRound2
  have h1 : (0 : ℤ) ≤ roundHalfEven (q * 100) :=
    roundHalfEven_nonneg (by positivity)
  have h2 : (0 : ℚ) ≤ (roundHalfEven (q * 100) : ℚ) := by exact_mod_cast h1
  linarith

theorem pyRound2_le_one {q : ℚ} (h : q ≤ 1) : pyRound2 q ≤ 1 := by
  unfold pyRound2
  have h100 : q * 100 ≤ ((100 : ℤ) : ℚ) := by push_cast; linarith
  have h1 : roundHalfEven (q * 100) ≤ 100 := roundHalfEven_le_intCast h100
  have h2 : (roundHalfEven (q * 100) : ℚ) ≤ 100 := by exact_mod_cast h1
  rw [div_le_one (by norm_num)]
  exact h2

/-- The accumulation loop of the EasyOCR branch computes the texts, the
confidence sum and the count of the accepted detections. -/
theorem easyocrScan_go (results : List (String × ℚ)) (ps : List String)
    (s : ℚ) (n : Nat) :
    results.foldl
      (fun acc tc =>
        if tc.2 > 3 / 10 then (acc.1 ++ [tc.1], acc.2.1 + tc.2, acc.2.2 + 1)
        else acc)
      (ps, s, n)
    = (ps ++ (acceptedDetections results).map Prod.fst,
       s + ((acceptedDetections results).map Prod.snd).sum,
       n + (acceptedDetections results).length) := by
  induction results generalizing ps s n with
  | nil => simp [acceptedDetections]
  | cons hd tl ih =>
    by_cases h : hd.2 > 3 / 10
    · rw [List.foldl_cons, if_pos h, ih]
      have ha : acceptedDetections (hd :: tl) = hd :: acceptedDetections tl := by
        simp [acceptedDetections, List.filter_cons, h]
      rw [ha]
      simp only [List.map_cons, List.sum_cons, List.length_cons,
        Prod.mk.injEq]
      refine ⟨by simp, by ring, by omega⟩
    · rw [List.foldl_cons, if_neg h, ih]
      have ha : acceptedDetections (hd :: tl) = acceptedDetections tl := by
        simp [acceptedDetections, List.filter_cons, h]
      rw [ha]

theorem easyocrScan_eq (results : List (String × ℚ)) :
    easyocrScan results
    = ((acceptedDetections results).map Prod.fst,
       ((acceptedDetections results).map Prod.snd).sum,
       (acceptedDetections results).length) := by
  unfold DeepSeekOCR.easyocrScan
  rw [easyocrScan_go]
  simp

theorem addMeta_fields (cfg : Config) (p : String) (img : PILImage)
    (r : OCRResult) :
    (DeepSeekOCR.addMeta cfg p img r).text = r.text
    ∧ (DeepSeekOCR.addMeta cfg p img r).confidence = r.confidence
    ∧ (DeepSeekOCR.addMeta cfg p img r).method = r.method := by
  exact ⟨rfl, rfl, rfl⟩

theorem easyocrStep_method {env : EngineEnv} {img : PILImage}
    {r : OCRResult} (h : DeepSeekOCR.easyocrStep env img = some r) :
    r.method = "easyocr_fallback" := by
  unfold DeepSeekOCR.easyocrStep at h
  dsimp only at h
  split at h
  · split at h
    · exact absurd h (by simp)
    · split at h
      · cases h; rfl
      · exact absurd h (by simp)
  · exact absurd h (by simp)

theorem tesseractStep_spec {env : EngineEnv} {img : PILImage}
    {r : OCRResult} (h : DeepSeekOCR.tesseractStep env img = some r) :
    r.method = "tesseract_fallback" ∧ r.confidence = 7 / 10
      ∧ r.text ≠ "" := by
  unfold DeepSeekOCR.tesseractStep at h
  split at h
  · split at h
    · exact absurd h (by simp)
    · split at h
      · rename_i hne
        cases h
        exact ⟨rfl, rfl, hne⟩
      · exact absurd h (by simp)
  · exact absurd h (by simp)

set_option maxRecDepth 4096 in
/-- The stripped demo text is never empty: it starts with a non-blank
character. -/
theorem demoText_stripped_ne_empty (w h : Nat) (m : String)
    (f : Option String) :
    pyStrip (DeepSeekOCR.demoText w h m f) ≠ "" := by
  apply pyStrip_ne_empty 'O'
  · have hO : 'O' ∈
        ("OCR Processing Failed\n            \nAll OCR methods were attempted but none could extract text from this image.\n\nImage Details:\n- Dimensions: " : String).data := by
      decide
    unfold DeepSeekOCR.demoText
    simp only [String.data_append, List.append_assoc]
    exact List.mem_append_left _ hO
  · rfl

theorem extract_text_demo_spec (img : PILImage) (prompt : Option String) :
    (DeepSeekOCR.extract_text_demo img prompt).method = "demo_mode"
    ∧ (DeepSeekOCR.extract_text_demo img prompt).confidence = 0
    ∧ (DeepSeekOCR.extract_text_demo img prompt).text ≠ "" := by
  refine ⟨rfl, rfl, ?_⟩
  exact demoText_stripped_ne_empty img.width img.height img.mode img.format

/-- Members of the accepted sublist sit strictly above the floor and come
from the raw detection list. -/
theorem mem_acceptedDetections {results : List (String × ℚ)}
    {tc : String × ℚ} (h : tc ∈ acceptedDetections results) :
    tc ∈ results ∧ 3 / 10 < tc.2 := by
  unfold acceptedDetections at h
  have := List.of_mem_filter h
  exact ⟨List.mem_of_mem_filter h, by simpa using this⟩

/-- When every detection reported for the image has confidence at most 1,
a successful EasyOCR step yields a confidence in [0, 1]. -/
theorem easyocrStep_confidence {env : EngineEnv} {img : PILImage}
    {r : OCRResult}
    (hub : ∀ results, env.easyocrReadtext img = .ok results →
      ∀ tc ∈ results, tc.2 ≤ 1)
    (h : DeepSeekOCR.easyocrStep env img = some r) :
    0 ≤ r.confidence ∧ r.confidence ≤ 1 := by
  unfold DeepSeekOCR.easyocrStep at h
  dsimp only at h
  split at h
  case isFalse => exact absurd h (by simp)
  case isTrue havail =>
  split at h
  case h_1 => exact absurd h (by simp)
  case h_2 results heq =>
  rw [easyocrScan_eq results] at h
  split at h
  case isFalse => exact absurd h (by simp)
  case isTrue hne =>
  cases h
  have hAne : acceptedDetections results ≠ [] := by
    intro hA
    simp [hA] at hne
  have hlen : 0 < (acceptedDetections results).length :=
    List.length_pos.mpr hAne
  have hbound : ∀ x ∈ (acceptedDetections results).map Prod.snd,
      0 ≤ x ∧ x ≤ 1 := by
    intro x hx
    rcases List.mem_map.mp hx with ⟨tc, htc, hxe⟩
    rcases mem_acceptedDetections htc with ⟨hmem, hgt⟩
    subst hxe
    exact ⟨by linarith, hub results heq tc hmem⟩
  have hsum0 : 0 ≤ ((acceptedDetections results).map Prod.snd).sum :=
    List.sum_nonneg fun x hx => (hbound x hx).1
  have hsum1 : ((acceptedDetections results).map Prod.snd).sum
      ≤ ((acceptedDetections results).length : ℚ) := by
    have := List.sum_le_card_nsmul ((acceptedDetections results).map Prod.snd)
      1 (fun x hx => (hbound x hx).2)
    simpa [nsmul_eq_mul] using this
  dsimp only
  rw [if_pos hlen]
  constructor
  · apply pyRound2_nonneg
    exact div_nonneg hsum0 (by exact_mod_cast Nat.zero_le _)
  · apply pyRound2_le_one
    rw [div_le_one (by exact_mod_cast hlen)]
    exact hsum1

theorem extract_text_local_spec {st : ModelState} {env : EngineEnv}
    {img : PILImage} {prompt : Option String} {r : OCRResult}
    (h : DeepSeekOCR.extract_text_local st env img prompt = .ok r) :
    r.confidence = 1 ∧ r.method = "deepseek_local" := by
  unfold DeepSeekOCR.extract_text_local at h
  split at h
  · split at h
    · exact absurd h (by simp)
    · cases h; exact ⟨rfl, rfl⟩
  · exact absurd h (by simp)

theorem extract_text_api_spec (cfg : Config) (img : PILImage)
    (prompt : Option String) :
    (DeepSeekOCR.extract_text_api cfg img prompt).confidence = 0
    ∧ ((DeepSeekOCR.extract_text_api cfg img prompt).method = "api_error"
      ∨ (DeepSeekOCR.extract_text_api cfg img prompt).method
          = "api_limitation") := by
  unfold DeepSeekOCR.extract_text_api
  split
  · exact ⟨rfl, Or.inl rfl⟩
  · exact ⟨rfl, Or.inr rfl⟩

/-- The bounded-confidence / non-empty-text facts for the whole fallback
chain. -/
theorem fallback_confidence_text {env : EngineEnv} {img : PILImage}
    {prompt : Option String}
    (hub : ∀ results, env.easyocrReadtext img = .ok results →
      ∀ tc ∈ results, tc.2 ≤ 1) :
    0 ≤ (DeepSeekOCR.extract_text_fallback env img prompt).confidence
    ∧ (DeepSeekOCR.extract_text_fallback env img prompt).confidence ≤ 1
    ∧ ((DeepSeekOCR.extract_text_fallback env img prompt).method
          = "demo_mode"
        ∨ (DeepSeekOCR.extract_text_fallback env img prompt).method
          = "tesseract_fallback"
      → (DeepSeekOCR.extract_text_fallback env img prompt).text ≠ "") := by
  unfold DeepSeekOCR.extract_text_fallback DeepSeekOCR.fallbackRest
  cases h1 : DeepSeekOCR.easyocrStep env img with
  | some r =>
    simp only
    rcases easyocrStep_confidence hub h1 with ⟨hc0, hc1⟩
    refine ⟨hc0, hc1, ?_⟩
    have hm := easyocrStep_method h1
    intro hcontra
    rcases hcontra with hd | ht
    · rw [hm] at hd; exact absurd hd (by decide)
    · rw [hm] at ht; exact absurd ht (by decide)
  | none =>
    cases h2 : DeepSeekOCR.tesseractStep env img with
    | some r =>
      simp only
      rcases tesseractStep_spec h2 with ⟨hm, hc, ht⟩
      rw [hc]
      exact ⟨by norm_num, by norm_num, fun _ => ht⟩
    | none =>
      simp only
      rcases extract_text_demo_spec img prompt with ⟨hm, hc, ht⟩
      rw [hc]
      exact ⟨le_refl 0, by norm_num, fun _ => ht⟩

/-- The fallback chain only ever tags its result with one of the three
fallback methods. -/
theorem fallback_method (env : EngineEnv) (img : PILImage)
    (prompt : Option String) :
    (DeepSeekOCR.extract_text_fallback env img prompt).method
        = "easyocr_fallback"
    ∨ (DeepSeekOCR.extract_text_fallback env img prompt).method
        = "tesseract_fallback"
    ∨ (DeepSeekOCR.extract_text_fallback env img prompt).method
        = "demo_mode" := by
  unfold DeepSeekOCR.extract_text_fallback DeepSeekOCR.fallbackRest
  cases h1 : DeepSeekOCR.easyocrStep env img with
  | some r => exact Or.inl (easyocrStep_method h1)
  | none =>
    cases h2 : DeepSeekOCR.tesseractStep env img with
    | some r => exact Or.inr (Or.inl (tesseractStep_spec h2).1)
    | none => exact Or.inr (Or.inr rfl)

/-- The instrumented fallback computes the same result as the plain
fallback. -/
theorem fallbackTrace_fst (env : EngineEnv) (img : PILImage)
    (prompt : Option String) :
    (DeepSeekOCR.fallbackTrace env img prompt).1
      = DeepSeekOCR.extract_text_fallback env img prompt := by
  unfold DeepSeekOCR.fallbackTrace DeepSeekOCR.extract_text_fallback
    DeepSeekOCR.fallbackRest
  dsimp only
  cases h1 : DeepSeekOCR.easyocrStep env img
  · cases h2 : DeepSeekOCR.tesseractStep env img <;> simp [h1, h2]
  · simp [h1]

/-- The instrumented dispatcher computes the same result as
`extract_text`. -/
theorem extract_text_trace_fst (cfg : Config) (st : ModelState)
    (env : EngineEnv) (path : String) (prompt : Option String) :
    (DeepSeekOCR.extract_text_trace cfg st env path prompt).1
      = DeepSeekOCR.extract_text cfg st env path prompt := by
  unfold DeepSeekOCR.extract_text_trace DeepSeekOCR.extract_text
  cases hload : ImageProcessor.load_image cfg.ocr.max_image_size
      env.openImage path with
  | error e => simp
  | ok image0 =>
    cases hpre : DeepSeekOCR.preprocessStage cfg image0 with
    | error e => simp [hpre]
    | ok image =>
      simp only [hpre]
      by_cases hl :
          (cfg.model.use_local && st.modelLoaded && st.tokenizerLoaded)
            = true
      · simp only [hl, if_true]
        cases hloc : DeepSeekOCR.extract_text_local st env image prompt <;>
          simp [hloc]
      · rw [Bool.not_eq_true] at hl
        simp only [hl, Bool.false_eq_true, if_false]
        by_cases ha :
            (!cfg.model.use_local && cfg.api.deepseek_api_key != "") = true
        · simp only [ha, if_true]
          by_cases hm : (DeepSeekOCR.extract_text_api cfg image prompt).method
              = "api_limitation"
          · simp [hm, fallbackTrace_fst]
          · simp [hm]
        · rw [Bool.not_eq_true] at ha
          simp only [ha, Bool.false_eq_true, if_false]
          simp [fallbackTrace_fst]

/-- Unrolling the batch loop: the accumulator is extended by one entry per
path, in order. -/
theorem batchLoop_eq (cfg : Config) (st : ModelState) (env : EngineEnv)
    (prompt : Option String) (paths : List String)
    (acc : List BatchItem) :
    DeepSeekOCR.batchLoop cfg st env prompt paths acc
      = acc ++ paths.map (DeepSeekOCR.batchItem cfg st env prompt) := by
  induction paths generalizing acc with
  | nil => simp [DeepSeekOCR.batchLoop]
  | cons hd tl ih => simp [DeepSeekOCR.batchLoop, ih]

theorem is_allowed_extension_iff (cfg : Config) (filename : String) :
    FileValidator.is_allowed_extension cfg filename = true
    ↔ filename.data.contains '.' = true
      ∧ pyLower (extensionAfterLastDot filename)
          ∈ cfg.upload.allowed_extensions.map pyLower := by
  unfold FileValidator.is_allowed_extension FileValidator.allowedExtensionsSet
  split
  · rename_i hc
    rw [hc]
    simp only [true_and]
    exact list_contains_iff _ _
  · rename_i hc
    simp only [Bool.not_eq_true] at hc
    rw [hc]
    simp

theorem is_valid_size_iff (cfg : Config) (f : FileStorage) :
    FileValidator.is_valid_size cfg f = true
    ↔ f.content.length ≤ cfg.upload.max_file_size := by
  unfold FileValidator.is_valid_size
  exact decide_eq_true_iff

theorem is_valid_mime_type_iff (mimeGuess : String → Option String)
    (f : FileStorage) :
    FileValidator.is_valid_mime_type mimeGuess f = true
    ↔ ((∃ m, mimeGuess f.filename = some m
          ∧ m ∈ FileValidator.validMimeTypes)
        ∨ FileValidator.headerSignatureCheck f = true) := by
  unfold FileValidator.is_valid_mime_type
  cases hg : mimeGuess f.filename with
  | none => simp
  | some m =>
    by_cases hm : m ∈ FileValidator.validMimeTypes
    · simp [hm, List.contains, List.elem_iff]
    · simp [hm, List.contains, List.elem_iff]

/-! ### Claim theorems -/

/-- C9: every image returned by `ImageProcessor.load_image` is in RGB
mode and its larger dimension is at most the configured `max_image_size`;
when resizing was needed, the aspect ratio is preserved: the larger
dimension becomes `max_image_size` and the smaller is scaled by the same
factor, truncated to an integer; otherwise the dimensions are
unchanged. -/
theorem load_image_invariants (max_size : Nat)
    (openI : String → Except String PILImage) (path : String)
    (img0 img : PILImage)
    (hopen : openI path = .ok img0)
    (h : ImageProcessor.load_image max_size openI path = .ok img) :
    img.mode = "RGB"
    ∧ max img.width img.height ≤ max_size
    ∧ (max img0.width img0.height > max_size →
        (if img0.width > img0.height then
          img.width = max_size
            ∧ img.height = img0.height * max_size / img0.width
        else
          img.height = max_size
            ∧ img.width = img0.width * max_size / img0.height))
    ∧ (max img0.width img0.height ≤ max_size →
        img.width = img0.width ∧ img.height = img0.height) := by
  unfold ImageProcessor.load_image at h
  rw [hopen] at h
  dsimp only at h
  by_cases hr : max img0.width img0.height > max_size
  · have hr' : ¬ max img0.width img0.height ≤ max_size := by omega
    by_cases hw : img0.width > img0.height
    · have hw0 : 0 < img0.width := by
        rcases Nat.eq_zero_or_pos img0.width with h0 | h0
        · omega
        · exact h0
      have hdiv : img0.height * max_size / img0.width ≤ max_size :=
        Nat.div_le_of_le_mul
          (Nat.mul_le_mul_right max_size (Nat.le_of_lt hw))
      by_cases hm : img0.mode = "RGB" <;>
        simp only [hm, ne_eq, not_true_eq_false, if_false,
          if_true, not_false_eq_true, hr, if_pos,
          ImageProcessor.resize_image, hr', hw] at h <;>
      · cases h
        refine ⟨rfl, ?_, fun _ => by simp [hw], fun hc => absurd hc hr'⟩
        simp only [max_le_iff]
        exact ⟨le_refl _, hdiv⟩
    · have hh0 : 0 < img0.height := by
        simp only [gt_iff_lt, not_lt] at hw
        omega
      have hdiv : img0.width * max_size / img0.height ≤ max_size := by
        apply Nat.div_le_of_le_mul
        apply Nat.mul_le_mul_right max_size
        omega
      by_cases hm : img0.mode = "RGB" <;>
        simp only [hm, ne_eq, not_true_eq_false, if_false,
          if_true, not_false_eq_true, hr, if_pos,
          ImageProcessor.resize_image, hr', hw] at h <;>
      · cases h
        refine ⟨rfl, ?_, fun _ => by simp [hw], fun hc => absurd hc hr'⟩
        simp only [max_le_iff]
        exact ⟨hdiv, le_refl _⟩
  · have hr' : max img0.width img0.height ≤ max_size := by omega
    by_cases hm : img0.mode = "RGB" <;>
      simp only [hm, ne_eq, not_true_eq_false, if_false, if_true,
        not_false_eq_true, hr] at h <;>
    · cases h
      exact ⟨by simp [hm], hr', fun hc => absurd hc (by omega),
        fun _ => ⟨rfl, rfl⟩⟩

/-- C9 witness: a 5000×2500 image in mode L is returned as 4096×2048 in
RGB. -/
theorem load_image_invariants_witness :
    ImageProcessor.load_image 4096 envWide.openImage "big.png"
      = .ok { width := 4096, height := 2048, mode := "RGB", format := none }
    ∧ ({ width := 4096, height := 2048, mode := "RGB", format := none }
        : PILImage).mode = "RGB"
    ∧ max (4096 : Nat) 2048 ≤ 4096 := by
  have h : ImageProcessor.load_image 4096 envWide.openImage "big.png"
      = .ok { width := 4096, height := 2048, mode := "RGB",
              format := none } := by rfl
  have hc := load_image_invariants 4096 envWide.openImage "big.png"
    imgWide { width := 4096, height := 2048, mode := "RGB", format := none }
    rfl h
  exact ⟨h, hc.1, hc.2.1⟩

/-- C10: `validate_file` accepts exactly the files with a non-empty
filename whose lowercased extension after the last dot is allowed, whose
size is within the limit, and whose guessed MIME type or magic bytes
match a known image/PDF signature; dotless filenames are always rejected;
every other outcome is a `ValidationError` carrying exactly one of the
four failure reasons. -/
theorem validate_file_iff (cfg : Config)
    (mimeGuess : String → Option String) (file : Option FileStorage) :
    (FileValidator.validate_file cfg mimeGuess file = .ok true
      ↔ specFileAccepted cfg mimeGuess file)
    ∧ (∀ f, file = some f → f.filename.data.contains '.' = false →
        ∃ e, FileValidator.validate_file cfg mimeGuess file = .error e)
    ∧ ((∃ e, FileValidator.validate_file cfg mimeGuess file = .error e)
        ∨ FileValidator.validate_file cfg mimeGuess file = .ok true) := by
  refine ⟨?_, ?_, ?_⟩
  · cases file with
    | none => simp [FileValidator.validate_file, specFileAccepted]
    | some f =>
      unfold FileValidator.validate_file
      dsimp only
      constructor
      · intro h
        split_ifs at h with h1 h2 h3 h4
        simp only [Bool.not_eq_true, Bool.not_eq_false'] at h2 h3 h4
        rcases (is_allowed_extension_iff cfg f.filename).mp h2
          with ⟨hdot, hext⟩
        refine ⟨f, rfl, h1, hdot, hext, ?_, ?_⟩
        · exact (is_valid_size_iff cfg f).mp h3
        · exact (is_valid_mime_type_iff mimeGuess f).mp h4
      · rintro ⟨f', hf, hname, hdot, hext, hsize, hmime⟩
        injection hf with hf
        subst hf
        rw [if_neg hname]
        have h2 : FileValidator.is_allowed_extension cfg f.filename
            = true := (is_allowed_extension_iff cfg f.filename).mpr
          ⟨hdot, hext⟩
        have h3 : FileValidator.is_valid_size cfg f = true :=
          (is_valid_size_iff cfg f).mpr hsize
        have h4 : FileValidator.is_valid_mime_type mimeGuess f = true :=
          (is_valid_mime_type_iff mimeGuess f).mpr hmime
        rw [h2, h3, h4]
        simp
  · intro f hf hdotless
    subst hf
    unfold FileValidator.validate_file
    dsimp only
    by_cases h1 : f.filename = ""
    · rw [if_pos h1]
      exact ⟨.noFile, rfl⟩
    · rw [if_neg h1]
      have h2 : FileValidator.is_allowed_extension cfg f.filename
          = false := by
        unfold FileValidator.is_allowed_extension
        simp [hdotless]
        intro hm
        have hmem := (list_contains_iff f.filename.data '.').mpr hm
        rw [hdotless] at hmem
        exact (Bool.false_ne_true hmem).elim
      rw [h2]
      exact ⟨.extensionNotAllowed, rfl⟩
  · cases file with
    | none => exact Or.inl ⟨.noFile, rfl⟩
    | some f =>
      unfold FileValidator.validate_file
      dsimp only
      split_ifs
      · exact Or.inl ⟨.noFile, rfl⟩
      · exact Or.inl ⟨.extensionNotAllowed, rfl⟩
      · exact Or.inl ⟨.fileTooLarge, rfl⟩
      · exact Or.inl ⟨.invalidFileType, rfl⟩
      · exact Or.inr rfl

/-- C10 witness: a well-formed PNG upload is accepted, and a dotless
filename is rejected. -/
theorem validate_file_iff_witness :
    FileValidator.validate_file cfgBase (fun _ => none) (some filePng)
      = .ok true
    ∧ ∃ e, FileValidator.validate_file cfgBase (fun _ => none)
        (some { filename := "nodots", content := [] }) = .error e := by
  constructor
  · exact (validate_file_iff cfgBase (fun _ => none) (some filePng)).1.mpr
      ⟨filePng, rfl, by decide, by decide, by decide, by decide,
        Or.inr (by decide)⟩
  · exact (validate_file_iff cfgBase (fun _ => none)
      (some { filename := "nodots", content := [] })).2.1
      { filename := "nodots", content := [] } rfl (by decide)

/-- C4: batch extraction yields exactly one entry per input path, the i-th
entry being the independent single dispatch of the i-th path; a path whose
extraction raises becomes the individual failure record
`{image_path, text: "", error, success: False}` and a successful path
keeps its own result, so one failing item neither aborts the batch nor
alters the other entries. -/
theorem batch_extract_maps_paths (cfg : Config) (st : ModelState)
    (env : EngineEnv) (prompt : Option String) (paths : List String) :
    DeepSeekOCR.batch_extract_text cfg st env paths prompt
      = paths.map (DeepSeekOCR.batchItem cfg st env prompt)
    ∧ (DeepSeekOCR.batch_extract_text cfg st env paths prompt).length
      = paths.length
    ∧ (∀ p e, DeepSeekOCR.extract_text cfg st env p prompt = .error e →
        DeepSeekOCR.batchItem cfg st env prompt p = .failed p "" e false)
    ∧ (∀ p r, DeepSeekOCR.extract_text cfg st env p prompt = .ok r →
        DeepSeekOCR.batchItem cfg st env prompt p = .ok r) := by
  have hmap := batchLoop_eq cfg st env prompt paths []
  refine ⟨by simpa [DeepSeekOCR.batch_extract_text] using hmap, ?_, ?_, ?_⟩
  · unfold DeepSeekOCR.batch_extract_text
    rw [hmap]
    simp
  · intro p e h
    unfold DeepSeekOCR.batchItem
    rw [h]
  · intro p r h
    unfold DeepSeekOCR.batchItem
    rw [h]

/-- C4 witness: a batch of two paths where the second fails to open gives
two entries, with the second the failure record. -/
theorem batch_extract_maps_paths_witness :
    DeepSeekOCR.batch_extract_text cfgBase stNone envMissingSecond
        ["ok.jpg", "missing.png"] none
      = [DeepSeekOCR.batchItem cfgBase stNone envMissingSecond none "ok.jpg",
         DeepSeekOCR.batchItem cfgBase stNone envMissingSecond none
           "missing.png"]
    ∧ DeepSeekOCR.batchItem cfgBase stNone envMissingSecond none
        "missing.png"
      = .failed "missing.png" ""
          "Text extraction failed: Image loading failed: Image file not found: missing.png"
          false := by
  constructor
  · exact (batch_extract_maps_paths cfgBase stNone envMissingSecond none
      ["ok.jpg", "missing.png"]).1
  · exact (batch_extract_maps_paths cfgBase stNone envMissingSecond none
      ["ok.jpg", "missing.png"]).2.2.1 "missing.png" _ rfl

/-- C1 counterexample: with the local model selected and loaded and the
model raising during generation, `extract_text` re-raises an `OCRError`
past its boundary instead of attempting a fallback, so the claimed
"never raises" contract fails. -/
theorem extract_text_raises_counterexample :
    DeepSeekOCR.extract_text cfgLocal stLoaded envLocalBoom "doc.png" none
      = .error
        "Text extraction failed: Local OCR processing failed: CUDA out of memory" := by
  rfl

/-- C1 (amended): whenever the local-model branch is not taken and the
image loads and preprocesses successfully, `extract_text` returns a
result — failures of the API branch and of the fallback engines are
caught internally and converted into the next fallback attempt.
Image-loading failures and local-model-branch failures, by contrast,
propagate as `OCRError`. -/
theorem extract_text_total_off_local_branch (cfg : Config)
    (st : ModelState) (env : EngineEnv) (path : String)
    (prompt : Option String) (img1 img2 : PILImage)
    (hlocal : (cfg.model.use_local && st.modelLoaded
        && st.tokenizerLoaded) = false)
    (hload : ImageProcessor.load_image cfg.ocr.max_image_size env.openImage
        path = .ok img1)
    (hpre : DeepSeekOCR.preprocessStage cfg img1 = .ok img2) :
    ∃ r, DeepSeekOCR.extract_text cfg st env path prompt = .ok r := by
  unfold DeepSeekOCR.extract_text
  rw [hload]
  dsimp only
  rw [hpre]
  dsimp only
  rw [hlocal]
  simp only [Bool.false_eq_true, if_false]
  by_cases hapi :
      (!cfg.model.use_local && cfg.api.deepseek_api_key != "") = true
  · rw [if_pos hapi]
    split
    · exact ⟨_, rfl⟩
    · exact ⟨_, rfl⟩
  · rw [if_neg (by simp [hapi])]
    exact ⟨_, rfl⟩

/-- C1 witness: with nothing configured the dispatch still returns a
result. -/
theorem extract_text_total_off_local_branch_witness :
    ∃ r, DeepSeekOCR.extract_text cfgBase stNone envNone "a.png" none
      = .ok r :=
  extract_text_total_off_local_branch cfgBase stNone envNone "a.png" none
    imgWhite100 imgWhite100 rfl rfl rfl

set_option maxRecDepth 16384 in
/-- C5: with no engine configured or available the dispatcher returns the
placeholder result: its method tag is `demo_mode`, its confidence is
exactly 0, and its text describes the image dimensions and mode; for the
100×100 white test image the text contains the substring "100 x 100". -/
theorem no_engines_demo_result :
    (∀ (cfg : Config) (st : ModelState) (env : EngineEnv) (path : String)
        (prompt : Option String) (img1 img2 : PILImage),
      (cfg.model.use_local && st.modelLoaded && st.tokenizerLoaded)
          = false →
      (!cfg.model.use_local && cfg.api.deepseek_api_key != "") = false →
      ImageProcessor.load_image cfg.ocr.max_image_size env.openImage path
          = .ok img1 →
      DeepSeekOCR.preprocessStage cfg img1 = .ok img2 →
      DeepSeekOCR.easyocrStep env img2 = none →
      DeepSeekOCR.tesseractStep env img2 = none →
      DeepSeekOCR.extract_text cfg st env path prompt
          = .ok (DeepSeekOCR.addMeta cfg path img2
              (DeepSeekOCR.extract_text_demo img2 prompt))
        ∧ (DeepSeekOCR.extract_text_demo img2 prompt).method = "demo_mode"
        ∧ (DeepSeekOCR.extract_text_demo img2 prompt).confidence = 0)
    ∧ containsSub (DeepSeekOCR.extract_text_demo imgWhite100 none).text
        "100 x 100" := by
  constructor
  · intro cfg st env path prompt img1 img2 hlocal hapi hload hpre heasy htess
    refine ⟨?_, rfl, rfl⟩
    unfold DeepSeekOCR.extract_text
    rw [hload]
    dsimp only
    rw [hpre]
    dsimp only
    rw [hlocal]
    simp only [Bool.false_eq_true, if_false]
    rw [hapi]
    simp only [Bool.false_eq_true, if_false]
    unfold DeepSeekOCR.extract_text_fallback DeepSeekOCR.fallbackRest
    rw [heasy, htess]
  · refine ⟨"OCR Processing Failed\n            \nAll OCR methods were attempted but none could extract text from this image.\n\nImage Details:\n- Dimensions: ",
      " pixels\n- Color mode: RGB\n- Format: Unknown\n\nAttempted Methods:\n1. ✗ DeepSeek API (not supported yet)\n2. ✗ EasyOCR (no text found with sufficient confidence)\n3. ✗ Tesseract (no text detected or not installed)\n\nPossible reasons:\n- Image may not contain readable text\n- Text might be too small, blurry, or in a complex layout\n- Handwritten text is harder to recognize\n- Image quality might be too low\n\nSuggestions:\n- Try a clearer, higher resolution image\n- Ensure text is clearly visible and readable\n- Use images with printed (not handwritten) text\n- Check if the image actually contains text", ?_⟩
    rfl

/-- C5 witness: the zero-engine dispatch on the 100×100 white image. -/
theorem no_engines_demo_result_witness :
    DeepSeekOCR.extract_text cfgBase stNone envNone "white.png" none
      = .ok (DeepSeekOCR.addMeta cfgBase "white.png" imgWhite100
          (DeepSeekOCR.extract_text_demo imgWhite100 none))
    ∧ (DeepSeekOCR.extract_text_demo imgWhite100 none).method = "demo_mode"
    ∧ (DeepSeekOCR.extract_text_demo imgWhite100 none).confidence = 0 :=
  no_engines_demo_result.1 cfgBase stNone envNone "white.png" none
    imgWhite100 imgWhite100 rfl rfl rfl rfl rfl rfl

/-- C3: with an API key configured and the local model not in use, the
dispatcher calls the API; since the API step reports it cannot process
images (its result is tagged `api_limitation`; an exception in it would be
caught the same way), the dispatcher always continues to the fallback OCR
engines and never returns the API failure result directly. -/
theorem api_configured_falls_back (cfg : Config) (st : ModelState)
    (env : EngineEnv) (path : String) (prompt : Option String)
    (img1 img2 : PILImage)
    (huse : cfg.model.use_local = false)
    (hkey : cfg.api.deepseek_api_key ≠ "")
    (hload : ImageProcessor.load_image cfg.ocr.max_image_size env.openImage
        path = .ok img1)
    (hpre : DeepSeekOCR.preprocessStage cfg img1 = .ok img2) :
    DeepSeekOCR.extract_text cfg st env path prompt
      = .ok (DeepSeekOCR.addMeta cfg path img2
          (DeepSeekOCR.extract_text_fallback env img2 prompt))
    ∧ (∀ r, DeepSeekOCR.extract_text cfg st env path prompt = .ok r →
        r.method ≠ "api_limitation" ∧ r.method ≠ "api_error") := by
  have hmain : DeepSeekOCR.extract_text cfg st env path prompt
      = .ok (DeepSeekOCR.addMeta cfg path img2
          (DeepSeekOCR.extract_text_fallback env img2 prompt)) := by
    unfold DeepSeekOCR.extract_text
    rw [hload]
    dsimp only
    rw [hpre]
    dsimp only
    rw [huse]
    simp only [Bool.false_and, Bool.false_eq_true, if_false]
    have hkey' : (cfg.api.deepseek_api_key != "") = true := by
      simp [hkey]
    rw [hkey']
    simp only [Bool.not_false, Bool.true_and, if_true]
    have hapi : DeepSeekOCR.extract_text_api cfg img2 prompt
        = { text := DeepSeekOCR.apiLimitationText
              (prompt.getD DeepSeekOCR.defaultPrompt) img2,
            confidence := 0,
            method := "api_limitation",
            warning := some "DeepSeek API does not currently support image processing" } := by
      unfold DeepSeekOCR.extract_text_api
      rw [if_neg hkey]
    rw [hapi]
    simp
  refine ⟨hmain, ?_⟩
  intro r hr
  rw [hmain] at hr
  injection hr with hr
  subst hr
  rcases fallback_method env img2 prompt with hm | hm | hm <;>
  · constructor <;>
    · show (DeepSeekOCR.addMeta cfg path img2 _).method ≠ _
      rw [(addMeta_fields cfg path img2 _).2.2, hm]
      decide

/-- C3 witness: an API-key-only configuration lands in the fallback
chain. -/
theorem api_configured_falls_back_witness :
    DeepSeekOCR.extract_text cfgApi stNone envNone "doc.png" none
      = .ok (DeepSeekOCR.addMeta cfgApi "doc.png" imgWhite100
          (DeepSeekOCR.extract_text_fallback envNone imgWhite100 none)) :=
  (api_configured_falls_back cfgApi stNone envNone "doc.png" none
    imgWhite100 imgWhite100 rfl (by decide) rfl rfl).1

/-- C2 counterexample: when the local model's decoded response strips to
the empty string, `extract_text` returns normally with empty `text`, so
the non-empty-text part of the claim fails. -/
theorem extract_nonempty_text_counterexample :
    ∃ r, DeepSeekOCR.extract_text cfgLocal stLoaded envLocalEmpty
        "doc.png" none = .ok r ∧ r.text = "" :=
  ⟨_, rfl, rfl⟩

/-- C2 (amended): every normally returned result has confidence at least
0, and at most 1 provided each EasyOCR detection confidence is at most 1
(all other branches use the constants 0, 0.7 and 1.0); the demo and
Tesseract branches moreover have non-empty text, while the local-model
and EasyOCR branches return the engine's stripped text, which can be
empty. -/
theorem extract_confidence_bounds (cfg : Config) (st : ModelState)
    (env : EngineEnv) (path : String) (prompt : Option String)
    (r : OCRResult)
    (hub : ∀ img results, env.easyocrReadtext img = .ok results →
      ∀ tc ∈ results, tc.2 ≤ 1)
    (h : DeepSeekOCR.extract_text cfg st env path prompt = .ok r) :
    0 ≤ r.confidence ∧ r.confidence ≤ 1
    ∧ (r.method = "demo_mode" ∨ r.method = "tesseract_fallback" →
        r.text ≠ "") := by
  unfold DeepSeekOCR.extract_text at h
  split at h
  case h_1 => exact absurd h (by simp)
  case h_2 img0 hload =>
  split at h
  case h_1 => exact absurd h (by simp)
  case h_2 img hpre =>
  split at h
  case isTrue hl =>
    split at h
    case h_1 => exact absurd h (by simp)
    case h_2 rl hrl =>
      injection h with h
      subst h
      rcases extract_text_local_spec hrl with ⟨hc, hm⟩
      rcases addMeta_fields cfg path img rl with ⟨ht', hc', hm'⟩
      rw [hc', hm', hc, hm]
      refine ⟨by norm_num, by norm_num, ?_⟩
      rintro (hx | hx) <;> exact absurd hx (by decide)
  case isFalse hl =>
  split at h
  case isTrue ha =>
    dsimp only at h
    split at h
    case isTrue hlim =>
      injection h with h
      subst h
      rcases addMeta_fields cfg path img
          (DeepSeekOCR.extract_text_fallback env img prompt)
        with ⟨ht', hc', hm'⟩
      rw [ht', hc', hm']
      exact fallback_confidence_text (hub img)
    case isFalse hlim =>
      injection h with h
      subst h
      rcases extract_text_api_spec cfg img prompt with ⟨hc, hm⟩
      rcases addMeta_fields cfg path img
          (DeepSeekOCR.extract_text_api cfg img prompt)
        with ⟨ht', hc', hm'⟩
      rw [hc', hm', hc]
      refine ⟨le_refl 0, by norm_num, ?_⟩
      rintro (hx | hx) <;>
        rcases hm with hm | hm <;>
          rw [hm] at hx <;> exact absurd hx (by decide)
  case isFalse ha =>
    injection h with h
    subst h
    rcases addMeta_fields cfg path img
        (DeepSeekOCR.extract_text_fallback env img prompt)
      with ⟨ht', hc', hm'⟩
    rw [ht', hc', hm']
    exact fallback_confidence_text (hub img)

/-- C2 witness: a Tesseract-only dispatch returns confidence 0.7 in
[0, 1] and non-empty text. -/
theorem extract_confidence_bounds_witness :
    ∃ r, DeepSeekOCR.extract_text cfgBase stNone envTessHello "img.png"
        none = .ok r
      ∧ (0 ≤ r.confidence ∧ r.confidence ≤ 1
        ∧ (r.method = "demo_mode" ∨ r.method = "tesseract_fallback" →
            r.text ≠ "")) := by
  refine ⟨_, rfl, ?_⟩
  exact extract_confidence_bounds cfgBase stNone envTessHello "img.png"
    none _ (fun img results hr tc htc => by
      simp only [envTessHello, envNone] at hr
      injection hr with hr
      subst hr
      exact absurd htc (by simp)) rfl

/-- Evaluation of the EasyOCR step when the library imports and
`readtext` returns a detection list. -/
theorem easyocrStep_eq (env : EngineEnv) (img : PILImage)
    (results : List (String × ℚ))
    (havail : env.easyocrAvailable = true)
    (hread : env.easyocrReadtext img = .ok results) :
    DeepSeekOCR.easyocrStep env img
      = if acceptedDetections results ≠ [] then
          some { text := pyStrip (String.intercalate "\n"
                    ((acceptedDetections results).map Prod.fst)),
                 confidence := pyRound2
                   (((acceptedDetections results).map Prod.snd).sum
                     / ((acceptedDetections results).length : ℚ)),
                 method := "easyocr_fallback",
                 note := some ("Using EasyOCR - extracted "
                   ++ toString (acceptedDetections results).length
                   ++ " text segments"),
                 segments_found := some (acceptedDetections results).length }
        else none := by
  unfold DeepSeekOCR.easyocrStep
  rw [havail, if_pos rfl, hread]
  dsimp only
  rw [easyocrScan_eq]
  by_cases hne : acceptedDetections results = []
  · simp [hne]
  · have hmapne : (acceptedDetections results).map Prod.fst ≠ [] := by
      simpa using hne
    have hlen : 0 < (acceptedDetections results).length :=
      List.length_pos.mpr hne
    rw [if_pos hmapne, if_pos hne, if_pos hlen]
    simp [List.length_map]

/-- C6 (amended): the EasyOCR step accepts exactly the detections with
confidence strictly above the 0.3 floor; when at least one detection is
accepted, the result's text is the accepted texts joined in order with
newlines and then stripped of leading/trailing whitespace, and its
confidence is the arithmetic mean of the accepted confidences rounded to
two decimal places; when none passes the floor the step produces no
result and the next engine is tried. -/
theorem easyocr_step_characterization (env : EngineEnv) (img : PILImage)
    (prompt : Option String) (results : List (String × ℚ))
    (havail : env.easyocrAvailable = true)
    (hread : env.easyocrReadtext img = .ok results) :
    (acceptedDetections results ≠ [] →
      DeepSeekOCR.extract_text_fallback env img prompt
        = { text := pyStrip (String.intercalate "\n"
              ((acceptedDetections results).map Prod.fst)),
            confidence := pyRound2
              (((acceptedDetections results).map Prod.snd).sum
                / ((acceptedDetections results).length : ℚ)),
            method := "easyocr_fallback",
            note := some ("Using EasyOCR - extracted "
              ++ toString (acceptedDetections results).length
              ++ " text segments"),
            segments_found := some (acceptedDetections results).length })
    ∧ (acceptedDetections results = [] →
      DeepSeekOCR.extract_text_fallback env img prompt
        = DeepSeekOCR.fallbackRest env img prompt) := by
  have he := easyocrStep_eq env img results havail hread
  constructor
  · intro hne
    unfold DeepSeekOCR.extract_text_fallback
    rw [he, if_pos hne]
  · intro hnil
    unfold DeepSeekOCR.extract_text_fallback
    rw [he, if_neg (fun hh => hh hnil)]

/-- C6 counterexample: with one accepted detection " a" the dispatcher
joins and then strips, returning "a" instead of the verbatim join " a",
so the text differs from "the accepted detections joined in order". -/
theorem easyocr_join_counterexample :
    (DeepSeekOCR.extract_text_fallback envEasySpace imgWhite100 none).text
      = "a"
    ∧ String.intercalate "\n"
        ((acceptedDetections spaceDetections).map Prod.fst) = " a"
    ∧ ("a" : String) ≠ " a" := by
  have hacc : acceptedDetections spaceDetections = [(" a", 1 / 2)] := by
    simp only [acceptedDetections, spaceDetections, List.filter]
    norm_num
  have hne : acceptedDetections spaceDetections ≠ [] := by
    rw [hacc]
    simp
  have he := easyocrStep_eq envEasySpace imgWhite100 spaceDetections rfl rfl
  rw [if_pos hne] at he
  have h : DeepSeekOCR.extract_text_fallback envEasySpace imgWhite100 none
      = { text := pyStrip (String.intercalate "\n"
            ((acceptedDetections spaceDetections).map Prod.fst)),
          confidence := pyRound2
            (((acceptedDetections spaceDetections).map Prod.snd).sum
              / ((acceptedDetections spaceDetections).length : ℚ)),
          method := "easyocr_fallback",
          note := some ("Using EasyOCR - extracted "
            ++ toString (acceptedDetections spaceDetections).length
            ++ " text segments"),
          segments_found :=
            some (acceptedDetections spaceDetections).length } := by
    unfold DeepSeekOCR.extract_text_fallback
    rw [he]
  refine ⟨?_, ?_, by decide⟩
  · rw [h]
    show pyStrip (String.intercalate "\n"
      ((acceptedDetections spaceDetections).map Prod.fst)) = "a"
    rw [hacc]
    decide
  · rw [hacc]
    decide

/-- C6 witness: two detections above the floor and one below it give the
joined-and-stripped text and the rounded mean confidence 0.85. -/
theorem easyocr_step_characterization_witness :
    (DeepSeekOCR.extract_text_fallback envEasyMixed imgWhite100 none).text
      = "Hello\nWorld"
    ∧ (DeepSeekOCR.extract_text_fallback envEasyMixed imgWhite100
        none).confidence = 17 / 20
    ∧ (DeepSeekOCR.extract_text_fallback envEasyMixed imgWhite100
        none).method = "easyocr_fallback" := by
  have hacc : acceptedDetections mixedDetections
      = [("Hello", 9 / 10), ("World", 4 / 5)] := by
    simp only [acceptedDetections, mixedDetections, List.filter]
    norm_num
  have hne : acceptedDetections mixedDetections ≠ [] := by
    rw [hacc]
    simp
  have h := (easyocr_step_characterization envEasyMixed imgWhite100 none
    mixedDetections rfl rfl).1 hne
  rw [h]
  refine ⟨?_, ?_, rfl⟩
  · show pyStrip (String.intercalate "\n"
      ((acceptedDetections mixedDetections).map Prod.fst)) = "Hello\nWorld"
    rw [hacc]
    decide
  · show pyRound2
      (((acceptedDetections mixedDetections).map Prod.snd).sum
        / ((acceptedDetections mixedDetections).length : ℚ)) = 17 / 20
    rw [hacc]
    norm_num [pyRound2, roundHalfEven, Int.fract]

/-- C7 counterexample: Tesseract output carrying trailing whitespace is
stripped before being returned, so the dispatcher's output text is not
verbatim the engine's output. -/
theorem tesseract_verbatim_counterexample :
    ∃ r, DeepSeekOCR.extract_text cfgBase stNone envTessPadded "img.png"
        none = .ok r ∧ r.text = "Hello" ∧ ("Hello" : String) ≠ "Hello \n" :=
  ⟨_, rfl, rfl, by decide⟩

/-- C7 (amended): given a fixed engine response, the dispatcher's output
text is the engine's output with only leading/trailing whitespace
stripped, otherwise unmutated — for the Tesseract-only dispatch and for
the local-model branch; in particular, with only Tesseract available and
output "Hello World!" the result is exactly that text with confidence 0.7
and the Tesseract tag. -/
theorem engine_text_passthrough (env : EngineEnv) (img : PILImage)
    (prompt : Option String) (s resp : String) (st : ModelState) :
    (env.easyocrAvailable = false → env.tesseractAvailable = true →
      env.tesseractImageToString img = .ok s → pyStrip s ≠ "" →
      DeepSeekOCR.extract_text_fallback env img prompt
        = { text := pyStrip s, confidence := 7 / 10,
            method := "tesseract_fallback",
            note := some "Using Tesseract as fallback OCR engine",
            character_count := some (pyStrip s).length })
    ∧ (st.modelLoaded = true → st.tokenizerLoaded = true →
      env.localResponse img (prompt.getD DeepSeekOCR.defaultPrompt)
        = .ok resp →
      DeepSeekOCR.extract_text_local st env img prompt
        = .ok { text := pyStrip resp, confidence := 1,
                method := "deepseek_local" }) := by
  constructor
  · intro hea hta hts hne
    have he : DeepSeekOCR.easyocrStep env img = none := by
      unfold DeepSeekOCR.easyocrStep
      rw [hea]
      simp
    have ht2 : DeepSeekOCR.tesseractStep env img
        = some { text := pyStrip s, confidence := 7 / 10,
                 method := "tesseract_fallback",
                 note := some "Using Tesseract as fallback OCR engine",
                 character_count := some (pyStrip s).length } := by
      unfold DeepSeekOCR.tesseractStep
      rw [hta, if_pos rfl, hts]
      dsimp only
      rw [if_pos hne]
    unfold DeepSeekOCR.extract_text_fallback DeepSeekOCR.fallbackRest
    rw [he, ht2]
  · intro hm ht hresp
    unfold DeepSeekOCR.extract_text_local
    rw [hm, ht]
    simp only [Bool.and_self, if_pos rfl]
    rw [hresp]
    simp

/-- C7 witness: the "Hello World!" example from the spec. -/
theorem engine_text_passthrough_witness :
    DeepSeekOCR.extract_text_fallback envTessHello imgWhite100 none
      = { text := "Hello World!", confidence := 7 / 10,
          method := "tesseract_fallback",
          note := some "Using Tesseract as fallback OCR engine",
          character_count := some 12 } := by
  have h := (engine_text_passthrough envTessHello imgWhite100 none
    "Hello World!" "" stNone).1 rfl rfl rfl (by decide)
  exact h.trans (by rfl)

theorem easyocrStep_some_available {env : EngineEnv} {img : PILImage}
    {r : OCRResult} (h : DeepSeekOCR.easyocrStep env img = some r) :
    env.easyocrAvailable = true := by
  unfold DeepSeekOCR.easyocrStep at h
  split at h
  · rename_i ha
    exact ha
  · exact absurd h (by simp)

theorem tesseractStep_some_available {env : EngineEnv} {img : PILImage}
    {r : OCRResult} (h : DeepSeekOCR.tesseractStep env img = some r) :
    env.tesseractAvailable = true := by
  unfold DeepSeekOCR.tesseractStep at h
  split at h
  · rename_i ha
    exact ha
  · exact absurd h (by simp)

/-- The attempt order and short-circuit facts for the instrumented
fallback chain. -/
theorem fallbackTrace_spec (env : EngineEnv) (img : PILImage)
    (prompt : Option String) :
    List.Sublist (DeepSeekOCR.fallbackTrace env img prompt).2
        [DeepSeekOCR.Step.easyocr, DeepSeekOCR.Step.tesseract,
         DeepSeekOCR.Step.demo]
    ∧ ((DeepSeekOCR.fallbackTrace env img prompt).1.method
          = "easyocr_fallback" →
        DeepSeekOCR.Step.tesseract
            ∉ (DeepSeekOCR.fallbackTrace env img prompt).2
          ∧ DeepSeekOCR.Step.demo
            ∉ (DeepSeekOCR.fallbackTrace env img prompt).2)
    ∧ ((DeepSeekOCR.fallbackTrace env img prompt).1.method
          = "tesseract_fallback" →
        DeepSeekOCR.Step.demo
          ∉ (DeepSeekOCR.fallbackTrace env img prompt).2) := by
  cases h1 : DeepSeekOCR.easyocrStep env img with
  | some r =>
    have ha := easyocrStep_some_available h1
    simp only [DeepSeekOCR.fallbackTrace, h1, ha, if_true]
    refine ⟨by decide, fun _ => by decide, fun hm => ?_⟩
    exact absurd ((easyocrStep_method h1).symm.trans hm) (by decide)
  | none =>
    cases h2 : DeepSeekOCR.tesseractStep env img with
    | some r =>
      have hta := tesseractStep_some_available h2
      cases ha : env.easyocrAvailable <;>
        simp only [DeepSeekOCR.fallbackTrace, h1, h2, ha, hta,
          Bool.false_eq_true, if_false, if_true, List.nil_append] <;>
      · refine ⟨by decide, fun hm => ?_, fun _ => by decide⟩
        exact absurd ((tesseractStep_spec h2).1.symm.trans hm) (by decide)
    | none =>
      cases ha : env.easyocrAvailable <;>
        cases hta : env.tesseractAvailable <;>
        simp only [DeepSeekOCR.fallbackTrace, h1, h2, ha, hta,
          Bool.false_eq_true, if_false, if_true, List.nil_append,
          List.append_nil] <;>
      · refine ⟨by decide, fun hm => ?_, fun hm => ?_⟩ <;>
          exact absurd
            (((extract_text_demo_spec img prompt).1).symm.trans hm)
            (by decide)

set_option maxHeartbeats 1000000 in
/-- C8: within a single dispatch each engine step is attempted at most
once, in the fixed priority order local model → API → EasyOCR →
Tesseract → demo (so a step that failed is never retried), and the
dispatch short-circuits: once a step produces the result, no later step
is attempted; the instrumented trace computes the same result as
`extract_text`. -/
theorem dispatch_steps_once (cfg : Config) (st : ModelState)
    (env : EngineEnv) (path : String) (prompt : Option String) :
    (DeepSeekOCR.extract_text_trace cfg st env path prompt).1
      = DeepSeekOCR.extract_text cfg st env path prompt
    ∧ List.Sublist (DeepSeekOCR.extract_text_trace cfg st env path prompt).2
        DeepSeekOCR.stepOrder
    ∧ (DeepSeekOCR.extract_text_trace cfg st env path prompt).2.Nodup
    ∧ (DeepSeekOCR.Step.localModel
          ∈ (DeepSeekOCR.extract_text_trace cfg st env path prompt).2 →
        (DeepSeekOCR.extract_text_trace cfg st env path prompt).2
          = [DeepSeekOCR.Step.localModel])
    ∧ (∀ r, (DeepSeekOCR.extract_text_trace cfg st env path prompt).1
          = .ok r →
        (r.method = "easyocr_fallback" →
          DeepSeekOCR.Step.tesseract
              ∉ (DeepSeekOCR.extract_text_trace cfg st env path prompt).2
            ∧ DeepSeekOCR.Step.demo
              ∉ (DeepSeekOCR.extract_text_trace cfg st env path prompt).2)
        ∧ (r.method = "tesseract_fallback" →
          DeepSeekOCR.Step.demo
            ∉ (DeepSeekOCR.extract_text_trace cfg st env path prompt).2)) := by
  refine ⟨extract_text_trace_fst cfg st env path prompt, ?_⟩
  unfold DeepSeekOCR.extract_text_trace
  cases hload : ImageProcessor.load_image cfg.ocr.max_image_size
      env.openImage path with
  | error e =>
    dsimp only
    exact ⟨by decide, by decide, by simp, fun r hr => absurd hr (by simp)⟩
  | ok image0 =>
    cases hpre : DeepSeekOCR.preprocessStage cfg image0 with
    | error e =>
      simp only [hpre]
      exact ⟨by decide, by decide, by simp, fun r hr => absurd hr (by simp)⟩
    | ok image =>
      simp only [hpre]
      by_cases hl :
          (cfg.model.use_local && st.modelLoaded && st.tokenizerLoaded)
            = true
      · simp only [hl, if_true]
        cases hloc : DeepSeekOCR.extract_text_local st env image prompt with
        | error e =>
          dsimp only
          exact ⟨by decide, by decide, fun _ => rfl,
            fun r hr => absurd hr (by simp)⟩
        | ok rl =>
          dsimp only
          refine ⟨by decide, by decide, fun _ => rfl, fun r hr => ?_⟩
          injection hr with hr
          subst hr
          have hm : (DeepSeekOCR.addMeta cfg path image rl).method
              = "deepseek_local" := by
            rw [(addMeta_fields cfg path image rl).2.2]
            exact (extract_text_local_spec hloc).2
          constructor
          · intro hx
            exact absurd (hm.symm.trans hx) (by decide)
          · intro hx
            exact absurd (hm.symm.trans hx) (by decide)
      · rw [Bool.not_eq_true] at hl
        simp only [hl, Bool.false_eq_true, if_false]
        by_cases ha :
            (!cfg.model.use_local && cfg.api.deepseek_api_key != "") = true
        · simp only [ha, if_true]
          by_cases hm : (DeepSeekOCR.extract_text_api cfg image
              prompt).method = "api_limitation"
          · simp only [hm, if_pos rfl]
            try dsimp only
            rcases fallbackTrace_spec env image prompt with
              ⟨hsub, heasy, htess⟩
            have hsub2 : List.Sublist (DeepSeekOCR.Step.api ::
                (DeepSeekOCR.fallbackTrace env image prompt).2)
                DeepSeekOCR.stepOrder :=
              List.Sublist.cons _ (List.Sublist.cons₂ _ hsub)
            refine ⟨hsub2, hsub2.nodup (by decide), ?_, fun r hr => ?_⟩
            · intro hmem
              rcases List.mem_cons.mp hmem with hc | hc
              · exact absurd hc (by decide)
              · have := hsub.subset hc
                exact absurd this (by decide)
            · injection hr with hr
              subst hr
              have hmeq : (DeepSeekOCR.addMeta cfg path image
                  (DeepSeekOCR.fallbackTrace env image prompt).1).method
                  = (DeepSeekOCR.fallbackTrace env image prompt).1.method :=
                (addMeta_fields cfg path image _).2.2
              constructor
              · intro hx
                rcases heasy (hmeq.symm.trans hx) with ⟨hn1, hn2⟩
                constructor
                · intro hmem
                  rcases List.mem_cons.mp hmem with hc | hc
                  · exact absurd hc (by decide)
                  · exact hn1 hc
                · intro hmem
                  rcases List.mem_cons.mp hmem with hc | hc
                  · exact absurd hc (by decide)
                  · exact hn2 hc
              · intro hx
                have hn := htess (hmeq.symm.trans hx)
                intro hmem
                rcases List.mem_cons.mp hmem with hc | hc
                · exact absurd hc (by decide)
                · exact hn hc
          · simp only [hm, if_false]
            refine ⟨by decide, by decide, by simp, fun r hr => ?_⟩
            injection hr with hr
            subst hr
            have hmeq : (DeepSeekOCR.addMeta cfg path image
                (DeepSeekOCR.extract_text_api cfg image prompt)).method
                = (DeepSeekOCR.extract_text_api cfg image prompt).method :=
              (addMeta_fields cfg path image _).2.2
            rcases (extract_text_api_spec cfg image prompt).2 with hax | hax
            · constructor
              · intro hx
                exact absurd ((hax.symm.trans (hmeq.symm.trans hx)))
                  (by decide)
              · intro hx
                exact absurd ((hax.symm.trans (hmeq.symm.trans hx)))
                  (by decide)
            · constructor
              · intro hx
                exact absurd ((hax.symm.trans (hmeq.symm.trans hx)))
                  (by decide)
              · intro hx
                exact absurd ((hax.symm.trans (hmeq.symm.trans hx)))
                  (by decide)
        · rw [Bool.not_eq_true] at ha
          simp only [ha, Bool.false_eq_true, if_false]
          try dsimp only
          rcases fallbackTrace_spec env image prompt with ⟨hsub, heasy, htess⟩
          have hsub' : List.Sublist
              (DeepSeekOCR.fallbackTrace env image prompt).2
              DeepSeekOCR.stepOrder :=
            hsub.trans (by decide)
          refine ⟨hsub', hsub'.nodup (by decide), ?_, fun r hr => ?_⟩
          · intro hmem
            have := hsub.subset hmem
            exact absurd this (by decide)
          · injection hr with hr
            subst hr
            have hmeq : (DeepSeekOCR.addMeta cfg path image
                (DeepSeekOCR.fallbackTrace env image prompt).1).method
                = (DeepSeekOCR.fallbackTrace env image prompt).1.method :=
              (addMeta_fields cfg path image _).2.2
            exact ⟨fun hx => heasy (hmeq.symm.trans hx),
              fun hx => htess (hmeq.symm.trans hx)⟩

/-- C8 witness: a Tesseract-success dispatch never reaches the demo step,
and its trace follows the fixed order without repetition. -/
theorem dispatch_steps_once_witness :
    DeepSeekOCR.Step.demo
      ∉ (DeepSeekOCR.extract_text_trace cfgBase stNone envTessHello
          "img.png" none).2
    ∧ List.Sublist
        (DeepSeekOCR.extract_text_trace cfgBase stNone envTessHello
          "img.png" none).2 DeepSeekOCR.stepOrder
    ∧ (DeepSeekOCR.extract_text_trace cfgBase stNone envTessHello
        "img.png" none).2.Nodup := by
  have h := dispatch_steps_once cfgBase stNone envTessHello "img.png" none
  exact ⟨(h.2.2.2.2 _ rfl).2 rfl, h.2.1, h.2.2.1⟩

end DeepSeekOCRDemo
